import Mathlib

/-!
Verification of the mech-client request/submission/confirmation core.

This file gives a shallow embedding of the two source files
`mech_client/fetch_ipfs_hash.py` and `mech_client/marketplace_interact.py`
and proves (or refutes) the frozen specification claims about them.

Modelling conventions:
* Network reads and transaction side effects are recorded as an explicit
  event trace (`Ev`); the values such calls would return are supplied by an
  environment record (`Env`).
* `sys.exit(1)` sites are modelled as `Except.error` with a `MechError`
  naming the failure per the spec's error taxonomy; `return None` sites are
  modelled as distinct `InteractOutcome` constructors (the source
  distinguishes them by the message printed right before returning).
* Wall-clock time in the retry loops is idealised: an attempt is
  instantaneous and a backoff sleep advances time by exactly the sleep
  interval, matching the spec's own accounting (`ceil(T/B)` attempts).
* The `retries or MAX_RETRIES` (etc.) Python defaulting happens before the
  modelled loops; the loop models receive the resolved natural numbers.
-/

/-- Errors raised by `sys.exit(1)` / `raise` sites of the source, named after
the spec's error taxonomy (section 7).  `keyError` models the unhandled
Python `KeyError` raised by indexing
`CHAIN_TO_DEFAULT_MECH_MARKETPLACE_REQUEST_CONFIG[chain_id]`, and
`waitError` the `ValueError` raised by `asyncio.wait` on an empty task set. -/
inductive MechError where
  | keyError
  | unsupportedPaymentModel
  | insufficientBalance
  | insufficientFunds
  | waitError
  deriving DecidableEq, Repr

/-- Terminal `return` sites of `marketplace_interact` that are not raises.
All but `delivered` return `None` in the source; they are distinguished by
the control-flow position (and the message printed just before). -/
inductive InteractOutcome where
  | marketplaceUnsupported
  | approveFailed
  | submissionFailed
  | noData
  | delivered (data : String)
  deriving DecidableEq, Repr

/-- Network side effects of `marketplace_interact` and its helpers, in
source order.  Contract `.call()` reads are `read*` events; building,
signing and broadcasting transactions are separate events so that claims
about "no transaction is built" are directly visible in the trace. -/
inductive Ev where
  | readPaymentType
  | readMaxDeliveryRate
  | readServiceId
  | readBalanceTracker
  | readWalletTokenBalance
  | buildApproveTx
  | signApproveTx
  | sendApproveTx
  | waitApproveReceipt
  | readTrackerBalance
  | readSubscriptionNFT
  | readSubscriptionTokenId
  | readNvmBalance
  | buildRequestTx (value : Nat)
  | signRequestTx
  | sendRequestTx
  | readNonce
  | readRequestIdCall
  | signRequestId
  | postOffchain
  | watchRequestId
  | waitDelivery
  | waitOffchainDelivery
  | fetchData
  deriving DecidableEq, Repr

/-- Confirmation type enum imported from `mech_client.interact`; the three
members used by `marketplace_interact.py` (constructor names follow the
source). -/
inductive ConfirmationType where
  | ON_CHAIN
  | OFF_CHAIN
  | WAIT_FOR_BOTH
  deriving DecidableEq, Repr

/-- The delivery-observation channels named by the spec's DeliveryWaiter. -/
inductive Channel where
  | onchain
  | offchain
  | subgraph
  deriving DecidableEq, Repr

/-- Payment type tag of a native-currency mech (`PAYMENT_TYPE_NATIVE`). -/
def PAYMENT_TYPE_NATIVE : String :=
  "ba699a34be8fe0e7725e93dcbce1701b0211a8ca61330aaeb8a05bf2ec7abed1"

/-- Payment type tag of a token mech (`PAYMENT_TYPE_TOKEN`). -/
def PAYMENT_TYPE_TOKEN : String :=
  "3679d66ef546e66ce9057c4a052f317b135bc8e8c509638f7966edfd4fcf45e9"

/-- Payment type tag of a Nevermined subscription mech (`PAYMENT_TYPE_NVM`). -/
def PAYMENT_TYPE_NVM : String :=
  "803dd08fe79d91027fc9024e254a0942372b92f3ccabc1bd19f4a5c2b251c316"

/-- The zero address constant `web3.constants.ADDRESS_ZERO`. -/
def ADDRESS_ZERO : String := "0x0000000000000000000000000000000000000000"

/-- Wrapped-token address per chain id (`CHAIN_TO_WRAPPED_TOKEN`). -/
def CHAIN_TO_WRAPPED_TOKEN : List (Nat × String) :=
  [ (1, "0xC02aaA39b223FE8D0A0e5C4F27eAD9083C756Cc2"),
    (10, "0x4200000000000000000000000000000000000006"),
    (100, "0xe91D153E0b41518A2Ce8Dd3D7944Fa863463a97d"),
    (137, "0x0d500B1d8E8eF31E21C99d1Db9A6444d3ADf1270"),
    (8453, "0x4200000000000000000000000000000000000006"),
    (42220, "0x471EcE3750Da237f93B8E339c536989b8978a438") ]

/-- Default marketplace request configuration entry
(the value type of `CHAIN_TO_DEFAULT_MECH_MARKETPLACE_REQUEST_CONFIG`). -/
structure MarketplaceRequestConfig where
  mech_marketplace_contract : String
  priority_mech_address : String
  response_timeout : Nat
  payment_data : String
  deriving DecidableEq, Repr

/-- Default marketplace request configuration table
(`CHAIN_TO_DEFAULT_MECH_MARKETPLACE_REQUEST_CONFIG`): it contains a single
entry, for chain id 100 (Gnosis). -/
def CHAIN_TO_DEFAULT_MECH_MARKETPLACE_REQUEST_CONFIG :
    List (Nat × MarketplaceRequestConfig) :=
  [ (100,
     { mech_marketplace_contract := "0x735FAAb1c4Ec41128c367AFb5c3baC73509f70bB",
       priority_mech_address := "0x478ad20eD958dCC5AD4ABa6F4E4cc51e07a840E4",
       response_timeout := 300,
       payment_data := "0x" }) ]

/-! ## Embedding of `fetch_ipfs_hash.py`

`fetch_ipfs_hash` builds the metadata dict
`{"prompt": prompt, "tool": tool, "nonce": str(uuid.uuid4())}`, applies
`metadata.update(extra_attributes)`, serialises it with
`json.dump(..., separators=(",", ":"))`, hashes the resulting bytes with
`IPFSHashOnly.get` and post-processes the hash.  The random UUID draw is an
explicit `nonce` argument of the model; the hash pipeline
(`IPFSHashOnly.get`, `multibase.decode`, `multicodec.remove_prefix`, `.hex()`)
is external library code, abstracted as a `hash_fn` parameter producing the
multihash hex digits.  Metadata values are modelled as strings (the values
the source itself inserts are strings). -/

/-- Overwrite the value at a key in place, or append, exactly as assignment
into an insertion-ordered Python dict behaves for one key. -/
def setKey : List (String × String) → String → String → List (String × String)
  | [], k, v => [(k, v)]
  | (k', v') :: rest, k, v =>
      if k' = k then (k, v) :: rest else (k', v') :: setKey rest k v

/-- Python `dict.update`: fold the updates over the dict, left to right. -/
def dictUpdate (d e : List (String × String)) : List (String × String) :=
  e.foldl (fun acc kv => setKey acc kv.1 kv.2) d

/-- The metadata dict built by `fetch_ipfs_hash` before serialisation:
`{"prompt": .., "tool": .., "nonce": ..}` updated with `extra_attributes`.
`nonce` is the `str(uuid.uuid4())` drawn during the call. -/
def build_metadata (prompt tool : String) (extra : List (String × String))
    (nonce : String) : List (String × String) :=
  dictUpdate [("prompt", prompt), ("tool", tool), ("nonce", nonce)] extra

/-- JSON string escaping for one character (quote and backslash; the
control/non-ASCII escapes of `json.dump` do not arise for the inputs the
claims are about). -/
def escapeJsonChar (c : Char) : String :=
  if c = '"' then "\\\"" else if c = '\\' then "\\\\" else String.singleton c

/-- JSON string escaping. -/
def escapeJson (s : String) : String :=
  String.join (s.data.map escapeJsonChar)

/-- Compact JSON serialisation of the metadata dict, as produced by
`json.dump(metadata, f, separators=(",", ":"))`. -/
def serialize_metadata (m : List (String × String)) : String :=
  "\x7b" ++
    String.intercalate ","
      (m.map (fun kv => "\"" ++ escapeJson kv.1 ++ "\":\"" ++ escapeJson kv.2 ++ "\"")) ++
  "\x7d"

/-- Model of `fetch_ipfs_hash(prompt, tool, extra_attributes)`.  `nonce` is
the UUID drawn by the call; `hash_fn` abstracts the external content-hash
pipeline (it yields the multihash hex digits of the serialised bytes).
Returns the triple `(shortContentId, fullContentId, rawBytes)`:
`("0x" + v1_file_hash_hex[9:], v1_file_hash_hex, ipfs_data)`. -/
def fetch_ipfs_hash (hash_fn : String → String) (prompt tool : String)
    (extra : List (String × String)) (nonce : String) :
    String × String × String :=
  let metadata := build_metadata prompt tool extra nonce
  let ipfs_data := serialize_metadata metadata
  let v1_file_hash_hex := "f01" ++ hash_fn ipfs_data
  ("0x" ++ v1_file_hash_hex.drop 9, v1_file_hash_hex, ipfs_data)

/-! ## The shared retry/deadline loop of the two submitters

`send_marketplace_request` and `send_offchain_marketplace_request` share the
skeleton

  tries = 0; deadline = now + timeout
  while tries < retries and now < deadline:
      tries += 1
      try: <attempt>; return <digest>
      except: sleep(sleep); retry
  return None

`loopGo` models one pass with explicit fuel `retries - tries`, the current
relative wall clock `now`, and the 0-based index `tries` of the next
attempt.  `attempt k` is the outcome of the `k`-th attempt (`none` = an
exception was raised), `evFail`/`evSucc` the trace a failed / successful
attempt emits.  It returns (result, number of attempts made, trace). -/
def loopGo {α : Type} (attempt : Nat → Option α) (evFail evSucc : List Ev)
    (timeout sleep : Nat) : Nat → Nat → Nat → Option α × Nat × List Ev
  | 0, _, _ => (none, 0, [])
  | fuel + 1, tries, now =>
      if now < timeout then
        match attempt tries with
        | some a => (some a, 1, evSucc)
        | none =>
            let r := loopGo attempt evFail evSucc timeout sleep fuel (tries + 1) (now + sleep)
            (r.1, r.2.1 + 1, evFail ++ r.2.2)
      else (none, 0, [])

/-- Model of the retry loop of `send_marketplace_request` (lines 324-351):
each attempt builds, signs and broadcasts the request transaction with
`value = price` attached; a failed attempt raised an exception somewhere in
that triple (modelled at the earliest stage, the build).  Returns
(transaction digest as the successful attempt's index, attempts made,
emitted trace). -/
def send_marketplace_request (attempts : Nat → Bool) (price retries timeout sleep : Nat) :
    Option Nat × Nat × List Ev :=
  loopGo (fun k => if attempts k then some k else none)
    [Ev.buildRequestTx price]
    [Ev.buildRequestTx price, Ev.signRequestTx, Ev.sendRequestTx]
    timeout sleep retries 0 0

/-- Model of the retry loop of `send_offchain_marketplace_request`
(lines 404-448): each attempt reads the account nonce, computes the
RequestId via `getRequestId`, signs it and posts the signed payload; same
retry/deadline skeleton as the on-chain variant.  Returns (response as the
successful attempt's index, attempts made, emitted trace). -/
def send_offchain_marketplace_request (attempts : Nat → Bool) (retries timeout sleep : Nat) :
    Option Nat × Nat × List Ev :=
  loopGo (fun k => if attempts k then some k else none)
    [Ev.readNonce]
    [Ev.readNonce, Ev.readRequestIdCall, Ev.signRequestId, Ev.postOffchain]
    timeout sleep retries 0 0

/-! ## The off-chain delivery poll (`wait_for_offchain_marketplace_data`)

  while True:
      try:
          response = requests.get(...).json()
          if response: return response
      except: time.sleep(1)

Note the `time.sleep(1)` is inside the `except` handler only: a successful
poll whose response is empty re-polls immediately with no sleep. -/

/-- Outcome of one poll of the fetch endpoint: the GET/`.json()` raised, or
returned a decoded response (`none` = falsy/empty response). -/
inductive PollOutcome where
  | err
  | resp (r : Option String)
  deriving DecidableEq, Repr

/-- Model of `wait_for_offchain_marketplace_data(request_id)`: the source
loop is unbounded, so the model takes fuel; `poll k` is the outcome of the
`k`-th poll.  Returns (result if reached within fuel, polls made, seconds
slept). -/
def wait_for_offchain_marketplace_data (poll : Nat → PollOutcome) :
    Nat → Nat → Option String × Nat × Nat
  | 0, _ => (none, 0, 0)
  | fuel + 1, k =>
      match poll k with
      | PollOutcome.resp (some s) => (some s, 1, 0)
      | PollOutcome.resp none =>
          let r := wait_for_offchain_marketplace_data poll fuel (k + 1)
          (r.1, r.2.1 + 1, r.2.2)
      | PollOutcome.err =>
          let r := wait_for_offchain_marketplace_data poll fuel (k + 1)
          (r.1, r.2.1 + 1, r.2.2 + 1)

/-- Seconds slept by the poll loop across polls `k, k+1, ..., k+n-1`: one
second for each poll that raised (the only place `time.sleep` occurs). -/
def errCountFrom (poll : Nat → PollOutcome) : Nat → Nat → Nat
  | _, 0 => 0
  | k, n + 1 =>
      (if poll k = PollOutcome.err then 1 else 0) + errCountFrom poll (k + 1) n

/-! ## The delivery waiter (`wait_for_marketplace_data_url`)

The function builds a task list: the `OFF_CHAIN`/`WAIT_FOR_BOTH` branch is a
stub (it only prints "Off chain to be implemented" and registers no task);
the `ON_CHAIN`/`WAIT_FOR_BOTH` branch creates the wss watch task (and the
subgraph branch is likewise a print-only stub).  `_wait_for_tasks` then
awaits `asyncio.FIRST_COMPLETED` on the task list, cancels the unfinished
tasks, and returns the finished task's result. -/

/-- The watch tasks actually created by `wait_for_marketplace_data_url` for
a given confirmation type. -/
def startedWatches (confirmation_type : ConfirmationType) : List Channel :=
  if confirmation_type = ConfirmationType.ON_CHAIN ∨
     confirmation_type = ConfirmationType.WAIT_FOR_BOTH then
    [Channel.onchain]
  else
    []

/-- The task that finishes first (earliest completion time; earlier list
position wins ties), `none` on an empty task list. -/
def firstCompleted (time : Channel → Nat) : List Channel → Option Channel
  | [] => none
  | c :: cs =>
      match firstCompleted time cs with
      | none => some c
      | some c' => if time c' < time c then some c' else some c

/-- Model of `wait_for_marketplace_data_url`: start the eligible watches,
block until the first completes, cancel the rest, return the first result.
`time c` is the wall-clock at which channel `c` would deliver and
`resultOf c` its result.  Returns `none` when no task was started
(`asyncio.wait` on an empty set raises), otherwise
(winning result, cancelled watches). -/
def wait_for_marketplace_data_url (confirmation_type : ConfirmationType)
    (time : Channel → Nat) (resultOf : Channel → Option String) :
    Option (Option String × List Channel) :=
  let tasks := startedWatches confirmation_type
  match firstCompleted time tasks with
  | none => none
  | some w => some (resultOf w, tasks.filter (fun c => ¬ c = w))

/-! ## Embedding of `marketplace_interact` and its helpers

The environment supplies every value a network read would return and the
outcome of every broadcast attempt.  Transport setup (the wss connection,
key loading, ABI file loads) has no event: the claims are about contract
reads and transactions. -/

/-- The external world of one `marketplace_interact` call. -/
structure Env where
  /-- `ledger_config.chain_id`. -/
  chain_id : Nat
  /-- `mech_config.mech_marketplace_contract`. -/
  mech_marketplace_contract : String
  /-- `mech_contract.functions.paymentType().call().hex()`. -/
  payment_type : String
  /-- `mech_contract.functions.maxDeliveryRate().call()`. -/
  max_delivery_rate : Nat
  /-- `mech_contract.functions.serviceId().call()`. -/
  service_id : Nat
  /-- `mapPaymentTypeBalanceTrackers(payment_type).call()`. -/
  mech_payment_balance_tracker : String
  /-- `token_contract.functions.balanceOf(sender).call()` in `approve_price_tokens`. -/
  wallet_token_balance : Nat
  /-- Whether the approve transaction digest is truthy. -/
  approve_tx_ok : Bool
  /-- `mapRequesterBalances(requester).call()` on the native balance tracker. -/
  native_requester_balance : Nat
  /-- `mapRequesterBalances(requester).call()` on the token balance tracker. -/
  token_requester_balance : Nat
  /-- `balanceOf(requester, subscription_id)` on the subscription NFT. -/
  nvm_requester_balance : Nat
  /-- Outcome of the `k`-th on-chain request broadcast attempt. -/
  attempts : Nat → Bool
  /-- Outcome of the `k`-th off-chain request post attempt. -/
  offchain_attempts : Nat → Bool
  /-- Wall-clock at which each watch channel would deliver. -/
  watch_time : Channel → Nat
  /-- Result of the on-chain delivery watch (`none` = falsy data url). -/
  data_url : Option String
  /-- Decoded payload fetched from the resolved result location. -/
  fetched_data : String

/-- Model of `fetch_mech_info` (lines 106-151): reads `paymentType`,
`maxDeliveryRate`, `serviceId` and the payment-type balance tracker, then
exits when the payment type tag is not one of the three recognised tags. -/
def fetch_mech_info (env : Env) :
    Except MechError (String × Nat × Nat × String) × List Ev :=
  let evs := [Ev.readPaymentType, Ev.readMaxDeliveryRate, Ev.readServiceId,
              Ev.readBalanceTracker]
  if env.payment_type ∈ [PAYMENT_TYPE_NATIVE, PAYMENT_TYPE_TOKEN, PAYMENT_TYPE_NVM] then
    (Except.ok (env.payment_type, env.service_id, env.max_delivery_rate,
                env.mech_payment_balance_tracker), evs)
  else
    (Except.error MechError.unsupportedPaymentModel, evs)

/-- Model of `approve_price_tokens` (lines 154-207): reads the sender's
wrapped-token wallet balance, exits when it is below the price, otherwise
builds, signs and sends the allowance-grant transaction and returns the
digest (its truthiness). -/
def approve_price_tokens (env : Env) (price : Nat) :
    Except MechError Bool × List Ev :=
  if env.wallet_token_balance < price then
    (Except.error MechError.insufficientFunds, [Ev.readWalletTokenBalance])
  else
    (Except.ok env.approve_tx_ok,
     [Ev.readWalletTokenBalance, Ev.buildApproveTx, Ev.signApproveTx, Ev.sendApproveTx])

/-- Model of `check_prepaid_balances` (lines 550-616): for the native and
token payment types, reads `mapRequesterBalances(requester)` on the
corresponding balance tracker and exits when it is below the max delivery
rate; any other payment type falls through with no read. -/
def check_prepaid_balances (env : Env) : Except MechError Unit × List Ev :=
  if env.payment_type = PAYMENT_TYPE_NATIVE then
    if env.native_requester_balance < env.max_delivery_rate then
      (Except.error MechError.insufficientBalance, [Ev.readTrackerBalance])
    else
      (Except.ok (), [Ev.readTrackerBalance])
  else if env.payment_type = PAYMENT_TYPE_TOKEN then
    if env.token_requester_balance < env.max_delivery_rate then
      (Except.error MechError.insufficientBalance, [Ev.readTrackerBalance])
    else
      (Except.ok (), [Ev.readTrackerBalance])
  else
    (Except.ok (), [])

/-- Model of `fetch_requester_nvm_subscription_balance` (lines 210-256):
reads the subscription NFT address and token id from the balance tracker,
then the requester's held units of that token. -/
def fetch_requester_nvm_subscription_balance (env : Env) : Nat × List Ev :=
  (env.nvm_requester_balance,
   [Ev.readSubscriptionNFT, Ev.readSubscriptionTokenId, Ev.readNvmBalance])

/-- Result of one pricing stage of `marketplace_interact`. -/
inductive PriceStep where
  | fail (e : MechError)
  | abort (o : InteractOutcome)
  | price (p : Nat)
  deriving DecidableEq, Repr

/-- Model of the `if not use_prepaid: ... else: ...` block (lines 751-782):
non-prepaid token calls grant the allowance and zero the attached price,
non-prepaid non-token calls attach the max delivery rate; prepaid calls
zero the price and run `check_prepaid_balances`. -/
def price_step (env : Env) (use_prepaid : Bool) : PriceStep × List Ev :=
  if use_prepaid = false then
    if env.payment_type = PAYMENT_TYPE_TOKEN then
      match approve_price_tokens env env.max_delivery_rate with
      | (Except.error e, evs) => (PriceStep.fail e, evs)
      | (Except.ok tx_ok, evs) =>
          if tx_ok = false then (PriceStep.abort InteractOutcome.approveFailed, evs)
          else (PriceStep.price 0, evs ++ [Ev.waitApproveReceipt])
    else
      (PriceStep.price env.max_delivery_rate, [])
  else
    match check_prepaid_balances env with
    | (Except.error e, evs) => (PriceStep.fail e, evs)
    | (Except.ok _, evs) => (PriceStep.price 0, evs)

/-- Model of the `if payment_type == PAYMENT_TYPE_NVM` block (lines
784-798): walks the subscription indirection, exits when the held units are
below the current `price` variable, then zeroes the attached price. -/
def nvm_step (env : Env) (price : Nat) : PriceStep × List Ev :=
  if env.payment_type = PAYMENT_TYPE_NVM then
    match fetch_requester_nvm_subscription_balance env with
    | (requester_balance, evs) =>
        if requester_balance < price then
          (PriceStep.fail MechError.insufficientBalance, evs)
        else
          (PriceStep.price 0, evs)
  else
    (PriceStep.price price, [])

/-- Result of the on-chain delivery watch for the waiter model: only the
on-chain channel has a result in this source. -/
def onchainResultOf (env : Env) : Channel → Option String :=
  fun c => if c = Channel.onchain then env.data_url else none

/-- Model of the on-chain tail of `marketplace_interact` (lines 800-853):
submit with the retry loop, surface `None` when it exhausts, otherwise
extract the RequestId from the receipt, run the delivery waiter and fetch
the payload from the delivered data url. -/
def onchain_tail (env : Env) (confirmation_type : ConfirmationType)
    (price retries timeout sleep : Nat) :
    Except MechError InteractOutcome × List Ev :=
  match send_marketplace_request env.attempts price retries timeout sleep with
  | (none, _, evs) => (Except.ok InteractOutcome.submissionFailed, evs)
  | (some _, _, evs) =>
      let evs := evs ++ [Ev.watchRequestId]
      match wait_for_marketplace_data_url confirmation_type env.watch_time
          (onchainResultOf env) with
      | none => (Except.error MechError.waitError, evs ++ [Ev.waitDelivery])
      | some (data_url, _cancelled) =>
          match data_url with
          | some _url =>
              (Except.ok (InteractOutcome.delivered env.fetched_data),
               evs ++ [Ev.waitDelivery, Ev.fetchData])
          | none => (Except.ok InteractOutcome.noData, evs ++ [Ev.waitDelivery])

/-- Model of the off-chain tail of `marketplace_interact` (lines 855-889):
post with the retry loop, surface `None` when it exhausts, otherwise run the
unbounded off-chain poll (abstracted as its eventual truthy response) and
fetch the payload. -/
def offchain_tail (env : Env) (retries timeout sleep : Nat) :
    Except MechError InteractOutcome × List Ev :=
  match send_offchain_marketplace_request env.offchain_attempts retries timeout sleep with
  | (none, _, evs) => (Except.ok InteractOutcome.submissionFailed, evs)
  | (some _, _, evs) =>
      (Except.ok (InteractOutcome.delivered env.fetched_data),
       evs ++ [Ev.waitOffchainDelivery, Ev.fetchData])

/-- Model of `marketplace_interact` (lines 619-889): bail out on a zero
marketplace address, index the default-request-config table by chain id
(an unhandled `KeyError` when absent), resolve the mech info, price the
call per payment model, run the subscription-credit check, then submit and
await delivery on the selected transport.  Returns the terminal outcome and
the network-event trace. -/
def marketplace_interact (env : Env) (use_prepaid use_offchain : Bool)
    (confirmation_type : ConfirmationType) (retries timeout sleep : Nat) :
    Except MechError InteractOutcome × List Ev :=
  if env.mech_marketplace_contract = ADDRESS_ZERO then
    (Except.ok InteractOutcome.marketplaceUnsupported, [])
  else
    match CHAIN_TO_DEFAULT_MECH_MARKETPLACE_REQUEST_CONFIG.lookup env.chain_id with
    | none => (Except.error MechError.keyError, [])
    | some _config =>
        match fetch_mech_info env with
        | (Except.error e, evs1) => (Except.error e, evs1)
        | (Except.ok _info, evs1) =>
            match price_step env use_prepaid with
            | (PriceStep.fail e, evs2) => (Except.error e, evs1 ++ evs2)
            | (PriceStep.abort o, evs2) => (Except.ok o, evs1 ++ evs2)
            | (PriceStep.price price1, evs2) =>
                match nvm_step env price1 with
                | (PriceStep.fail e, evs3) => (Except.error e, evs1 ++ evs2 ++ evs3)
                | (PriceStep.abort o, evs3) => (Except.ok o, evs1 ++ evs2 ++ evs3)
                | (PriceStep.price price, evs3) =>
                    let tail :=
                      if use_offchain = false then
                        onchain_tail env confirmation_type price retries timeout sleep
                      else
                        offchain_tail env retries timeout sleep
                    (tail.1, evs1 ++ evs2 ++ evs3 ++ tail.2)

/-! ## Helper lemmas about the retry loop -/

/-- The loop makes at most `fuel` attempts (`tries < retries` guard). -/
theorem loopGo_count_le_fuel {α : Type} (attempt : Nat → Option α) (evF evS : List Ev)
    (timeout sleep : Nat) :
    ∀ fuel tries now, (loopGo attempt evF evS timeout sleep fuel tries now).2.1 ≤ fuel := by
  intro fuel
  induction fuel with
  | zero => intro tries now; simp [loopGo]
  | succ f ih =>
      intro tries now
      simp only [loopGo]
      split
      · cases h : attempt tries with
        | some a => simp
        | none => simpa using ih (tries + 1) (now + sleep)
      · simp

/-- Either no attempt is made, or the last attempt made (the `(n-1)`-th one
counting from the loop entry, starting at wall clock `now + (n-1)·sleep`)
started strictly before the deadline. -/
theorem loopGo_deadline {α : Type} (attempt : Nat → Option α) (evF evS : List Ev)
    (timeout sleep : Nat) :
    ∀ fuel tries now,
      (loopGo attempt evF evS timeout sleep fuel tries now).2.1 = 0 ∨
      ((loopGo attempt evF evS timeout sleep fuel tries now).2.1 - 1) * sleep + now < timeout := by
  intro fuel
  induction fuel with
  | zero => intro tries now; left; simp [loopGo]
  | succ f ih =>
      intro tries now
      simp only [loopGo]
      split
      · rename_i hnow
        cases h : attempt tries with
        | some a => right; simpa using hnow
        | none =>
            right
            rcases ih (tries + 1) (now + sleep) with h0 | hlt
            · simpa [h0] using hnow
            · rcases Nat.eq_zero_or_pos
                ((loopGo attempt evF evS timeout sleep f (tries + 1) (now + sleep)).2.1) with hz | hpos
              · simpa [hz] using hnow
              · simp only [Nat.add_sub_cancel]
                have hn : (loopGo attempt evF evS timeout sleep f (tries + 1) (now + sleep)).2.1 - 1 + 1
                    = (loopGo attempt evF evS timeout sleep f (tries + 1) (now + sleep)).2.1 :=
                  Nat.succ_pred_eq_of_pos hpos
                rw [← hn, Nat.succ_mul]
                set A := ((loopGo attempt evF evS timeout sleep f (tries + 1) (now + sleep)).2.1 - 1) * sleep with hA
                omega
      · left; simp

/-- When every attempt raises, the loop returns no digest. -/
theorem loopGo_none_of_all_fail {α : Type} (attempt : Nat → Option α) (evF evS : List Ev)
    (timeout sleep : Nat) (hall : ∀ k, attempt k = none) :
    ∀ fuel tries now, (loopGo attempt evF evS timeout sleep fuel tries now).1 = none := by
  intro fuel
  induction fuel with
  | zero => intro tries now; simp [loopGo]
  | succ f ih =>
      intro tries now
      simp only [loopGo]
      split
      · rw [hall tries]
        simpa using ih (tries + 1) (now + sleep)
      · simp

/-- Every event of the loop's trace comes from one attempt's event list. -/
theorem loopGo_events_mem {α : Type} (attempt : Nat → Option α) (evF evS : List Ev)
    (timeout sleep : Nat) :
    ∀ fuel tries now x, x ∈ (loopGo attempt evF evS timeout sleep fuel tries now).2.2 →
      x ∈ evF ∨ x ∈ evS := by
  intro fuel
  induction fuel with
  | zero => intro tries now x hx; simp [loopGo] at hx
  | succ f ih =>
      intro tries now x hx
      simp only [loopGo] at hx
      split at hx
      · cases h : attempt tries with
        | some a => rw [h] at hx; right; simpa using hx
        | none =>
            rw [h] at hx
            simp only [List.mem_append] at hx
            rcases hx with hx | hx
            · left; exact hx
            · exact ih (tries + 1) (now + sleep) x hx
      · simp at hx

/-- With backoff `sleep > 0`, a loop entered at wall clock 0 makes at most
`ceil(timeout / sleep) = (timeout + sleep - 1) / sleep` attempts. -/
theorem loopGo_le_ceil {α : Type} (attempt : Nat → Option α) (evF evS : List Ev)
    (timeout sleep fuel : Nat) (hs : 0 < sleep) :
    (loopGo attempt evF evS timeout sleep fuel 0 0).2.1 ≤ (timeout + sleep - 1) / sleep := by
  rcases loopGo_deadline attempt evF evS timeout sleep fuel 0 0 with h0 | hlt
  · simp [h0]
  · set n := (loopGo attempt evF evS timeout sleep fuel 0 0).2.1 with hn
    rcases Nat.eq_zero_or_pos n with hz | hpos
    · simp [hz]
    · have h1 : (n - 1) * sleep < timeout := by omega
      have htpos : 1 ≤ timeout := by
        rcases Nat.eq_zero_or_pos timeout with ht | ht
        · omega
        · exact ht
      have h2 : (n - 1) * sleep ≤ timeout - 1 := by omega
      have h3 : n - 1 ≤ (timeout - 1) / sleep := (Nat.le_div_iff_mul_le hs).mpr h2
      have h4 : (timeout - 1 + sleep) / sleep = (timeout - 1) / sleep + 1 :=
        Nat.add_div_right (timeout - 1) hs
      have h5 : timeout + sleep - 1 = timeout - 1 + sleep := by omega
      rw [h5, h4]
      omega

/-- Every attempt the loop makes starts before the deadline: the `k`-th
attempt (0-based) starts at wall clock `k·sleep < timeout`. -/
theorem loopGo_attempt_before_deadline {α : Type} (attempt : Nat → Option α)
    (evF evS : List Ev) (timeout sleep fuel k : Nat)
    (hk : k < (loopGo attempt evF evS timeout sleep fuel 0 0).2.1) :
    k * sleep < timeout := by
  rcases loopGo_deadline attempt evF evS timeout sleep fuel 0 0 with h0 | hlt
  · omega
  · have hks : k * sleep ≤ ((loopGo attempt evF evS timeout sleep fuel 0 0).2.1 - 1) * sleep :=
      Nat.mul_le_mul_right sleep (by omega)
    omega

/-- If the first successful attempt is the `k`-th one and the loop's bounds
admit it, the loop returns that attempt's digest immediately, having made
exactly `k + 1` attempts. -/
theorem loopGo_first_success {α : Type} (attempt : Nat → Option α) (evF evS : List Ev)
    (timeout sleep : Nat) (a : α) :
    ∀ k fuel tries now,
      (∀ j, j < k → attempt (tries + j) = none) → attempt (tries + k) = some a →
      k < fuel → now + k * sleep < timeout →
      (loopGo attempt evF evS timeout sleep fuel tries now).1 = some a ∧
      (loopGo attempt evF evS timeout sleep fuel tries now).2.1 = k + 1 := by
  intro k
  induction k with
  | zero =>
      intro fuel tries now hbefore hk hfuel hnow
      obtain ⟨f, rfl⟩ : ∃ f, fuel = f + 1 := ⟨fuel - 1, by omega⟩
      have hnow' : now < timeout := by simpa using hnow
      rw [Nat.add_zero] at hk
      simp [loopGo, hnow', hk]
  | succ k ih =>
      intro fuel tries now hbefore hk hfuel hnow
      obtain ⟨f, rfl⟩ : ∃ f, fuel = f + 1 := ⟨fuel - 1, by omega⟩
      have hnow' : now < timeout := by
        have : now ≤ now + (k + 1) * sleep := Nat.le_add_right _ _
        omega
      have h0 : attempt tries = none := by simpa using hbefore 0 (Nat.succ_pos k)
      have hrec := ih f (tries + 1) (now + sleep)
        (fun j hj => by
          have := hbefore (j + 1) (Nat.succ_lt_succ hj)
          simpa [Nat.add_assoc, Nat.add_comm 1 j] using this)
        (by simpa [Nat.add_assoc, Nat.add_comm 1 k] using hk)
        (by omega)
        (by
          have : now + (k + 1) * sleep = now + sleep + k * sleep := by
            rw [Nat.succ_mul]; omega
          omega)
      simp only [loopGo, if_pos hnow', h0]
      exact ⟨hrec.1, by simp [hrec.2]⟩


/-! ## Helper lemmas about the metadata dict -/

/-- Writing one key leaves lookups of other keys unchanged. -/
theorem lookup_setKey_ne (k k' v : String) (hne : k' ≠ k) :
    ∀ d : List (String × String), (setKey d k' v).lookup k = d.lookup k := by
  have hbeq : (k == k') = false := beq_eq_false_iff_ne.mpr (fun h => hne h.symm)
  intro d
  induction d with
  | nil => simp [setKey, List.lookup, hbeq]
  | cons kv rest ih =>
      obtain ⟨a, b⟩ := kv
      by_cases ha : a = k'
      · subst ha
        simp [setKey, List.lookup, hbeq]
      · simp [setKey, if_neg ha, List.lookup, ih]

/-- `dict.update` with updates that never touch a key leaves that key's
lookup unchanged. -/
theorem lookup_dictUpdate_not_mem (k : String) :
    ∀ (e d : List (String × String)), k ∉ e.map Prod.fst →
      (dictUpdate d e).lookup k = d.lookup k := by
  intro e
  induction e with
  | nil => intro d _; rfl
  | cons kv rest ih =>
      intro d hk
      simp only [List.map_cons, List.mem_cons] at hk
      push_neg at hk
      have step : dictUpdate d (kv :: rest) = dictUpdate (setKey d kv.1 kv.2) rest := rfl
      rw [step, ih _ (hk.2), lookup_setKey_ne k kv.1 kv.2 (fun h => hk.1 h.symm)]

/-- Whenever `extra_attributes` does not supply a `"nonce"` key, the built
metadata's nonce is exactly the UUID drawn during the call. -/
theorem build_metadata_lookup_nonce (prompt tool : String)
    (extra : List (String × String)) (nonce : String)
    (hx : "nonce" ∉ extra.map Prod.fst) :
    (build_metadata prompt tool extra nonce).lookup "nonce" = some nonce := by
  unfold build_metadata
  rw [lookup_dictUpdate_not_mem _ _ _ hx]
  rfl

/-! ## Helper lemmas about the config tables and the interact components -/

/-- The default-request-config table has no entry for any chain but 100. -/
theorem lookup_default_config_ne (c : Nat) (h : c ≠ 100) :
    CHAIN_TO_DEFAULT_MECH_MARKETPLACE_REQUEST_CONFIG.lookup c = none := by
  have hbeq : (c == 100) = false := beq_eq_false_iff_ne.mpr h
  simp [CHAIN_TO_DEFAULT_MECH_MARKETPLACE_REQUEST_CONFIG, List.lookup, hbeq]

/-- The default-request-config table's entry for chain 100. -/
theorem lookup_default_config_100 :
    CHAIN_TO_DEFAULT_MECH_MARKETPLACE_REQUEST_CONFIG.lookup 100 =
      some { mech_marketplace_contract := "0x735FAAb1c4Ec41128c367AFb5c3baC73509f70bB",
             priority_mech_address := "0x478ad20eD958dCC5AD4ABa6F4E4cc51e07a840E4",
             response_timeout := 300,
             payment_data := "0x" } := rfl

/-- `fetch_mech_info` emits exactly its four resolution reads. -/
theorem fetch_mech_info_events (env : Env) :
    (fetch_mech_info env).2 =
      [Ev.readPaymentType, Ev.readMaxDeliveryRate, Ev.readServiceId, Ev.readBalanceTracker] := by
  unfold fetch_mech_info
  split <;> rfl

/-- `fetch_mech_info` succeeds only on the three recognised tags. -/
theorem fetch_mech_info_ok_tag (env : Env) (info : String × Nat × Nat × String)
    (h : (fetch_mech_info env).1 = Except.ok info) :
    env.payment_type ∈ [PAYMENT_TYPE_NATIVE, PAYMENT_TYPE_TOKEN, PAYMENT_TYPE_NVM] := by
  unfold fetch_mech_info at h
  by_cases hm : env.payment_type ∈ [PAYMENT_TYPE_NATIVE, PAYMENT_TYPE_TOKEN, PAYMENT_TYPE_NVM]
  · exact hm
  · rw [if_neg hm] at h
    exact absurd h (by simp)

/-- The pricing stage never builds, signs or sends the request transaction. -/
theorem price_step_no_request_tx (env : Env) (up : Bool) (x : Ev) :
    x ∈ (price_step env up).2 →
      x ∈ [Ev.readWalletTokenBalance, Ev.buildApproveTx, Ev.signApproveTx,
           Ev.sendApproveTx, Ev.waitApproveReceipt, Ev.readTrackerBalance] := by
  cases up with
  | false =>
      by_cases ht : env.payment_type = PAYMENT_TYPE_TOKEN
      · by_cases hw : env.wallet_token_balance < env.max_delivery_rate
        · simp only [price_step, approve_price_tokens, ht, hw, if_true, if_pos rfl]
          intro hx
          simp at hx
          simp [hx]
        · by_cases ha : env.approve_tx_ok = false
          · simp only [price_step, approve_price_tokens, ht, hw, ha, if_true, if_false,
              if_pos rfl, if_neg hw]
            intro hx
            simp at hx
            rcases hx with h | h | h | h <;> simp [h]
          · simp only [price_step, approve_price_tokens, ht, ha, if_true, if_pos rfl,
              if_neg hw, if_neg ha]
            intro hx
            simp at hx
            rcases hx with h | h | h | h | h <;> simp [h]
      · simp only [price_step, if_pos rfl, if_neg ht]
        intro hx
        simp at hx
  | true =>
      by_cases hn : env.payment_type = PAYMENT_TYPE_NATIVE
      · by_cases hb : env.native_requester_balance < env.max_delivery_rate
        · simp only [price_step, check_prepaid_balances, hn, hb, if_true]
          intro hx
          simp at hx
          simp [hx]
        · simp only [price_step, check_prepaid_balances, hn, if_true, if_neg hb]
          intro hx
          simp at hx
          simp [hx]
      · have hTN : ¬ PAYMENT_TYPE_TOKEN = PAYMENT_TYPE_NATIVE := by decide
        by_cases ht : env.payment_type = PAYMENT_TYPE_TOKEN
        · by_cases hb : env.token_requester_balance < env.max_delivery_rate
          · simp only [price_step, check_prepaid_balances, hn, ht, hb, if_true, if_neg hn,
              if_neg hTN, if_false]
            intro hx
            simp at hx
            simp [hx]
          · simp only [price_step, check_prepaid_balances, hn, ht, if_true, if_neg hn,
              if_neg hb, if_neg hTN, if_false]
            intro hx
            simp at hx
            simp [hx]
        · simp only [price_step, check_prepaid_balances, if_neg hn, if_neg ht]
          intro hx
          simp at hx

/-- The subscription-credit stage only reads the subscription indirection. -/
theorem nvm_step_events (env : Env) (p : Nat) (x : Ev) :
    x ∈ (nvm_step env p).2 →
      x ∈ [Ev.readSubscriptionNFT, Ev.readSubscriptionTokenId, Ev.readNvmBalance] := by
  by_cases hnvm : env.payment_type = PAYMENT_TYPE_NVM
  · by_cases hb : env.nvm_requester_balance < p
    · simp only [nvm_step, fetch_requester_nvm_subscription_balance, hnvm, hb, if_true]
      intro hx
      simpa using hx
    · simp only [nvm_step, fetch_requester_nvm_subscription_balance, hnvm, if_true, if_neg hb]
      intro hx
      simpa using hx
  · simp only [nvm_step, if_neg hnvm]
    intro hx
    simp at hx

/-- The price the pricing stage hands on: zero for prepaid calls and for
non-prepaid token calls, the max delivery rate otherwise. -/
theorem price_step_price (env : Env) (up : Bool) (p : Nat)
    (h : (price_step env up).1 = PriceStep.price p) :
    p = if up then 0
        else if env.payment_type = PAYMENT_TYPE_TOKEN then 0
        else env.max_delivery_rate := by
  cases up with
  | false =>
      by_cases ht : env.payment_type = PAYMENT_TYPE_TOKEN
      · by_cases hw : env.wallet_token_balance < env.max_delivery_rate
        · simp [price_step, approve_price_tokens, ht, hw] at h
        · by_cases ha : env.approve_tx_ok = false
          · simp [price_step, approve_price_tokens, ht, hw, ha] at h
          · simp [price_step, approve_price_tokens, ht, hw, ha] at h
            simp [ht, h.symm]
      · simp [price_step, ht] at h
        simp [ht, h.symm]
  | true =>
      have hif : (if (true : Bool) then (0 : Nat)
          else if env.payment_type = PAYMENT_TYPE_TOKEN then 0 else env.max_delivery_rate) = 0 := by
        simp
      rw [hif]
      by_cases hn : env.payment_type = PAYMENT_TYPE_NATIVE
      · by_cases hb : env.native_requester_balance < env.max_delivery_rate
        · simp [price_step, check_prepaid_balances, hn, hb] at h
        · simp [price_step, check_prepaid_balances, hn, hb] at h
          omega
      · have hTN : ¬ PAYMENT_TYPE_TOKEN = PAYMENT_TYPE_NATIVE := by decide
        by_cases ht : env.payment_type = PAYMENT_TYPE_TOKEN
        · by_cases hb : env.token_requester_balance < env.max_delivery_rate
          · simp [price_step, check_prepaid_balances, hn, ht, hb, hTN] at h
          · simp [price_step, check_prepaid_balances, hn, ht, hb, hTN] at h
            omega
        · simp [price_step, check_prepaid_balances, hn, ht] at h
          omega

/-- The price the subscription-credit stage hands on: zero for
subscription mechs, the incoming price otherwise. -/
theorem nvm_step_price (env : Env) (p q : Nat)
    (h : (nvm_step env p).1 = PriceStep.price q) :
    q = if env.payment_type = PAYMENT_TYPE_NVM then 0 else p := by
  by_cases hnvm : env.payment_type = PAYMENT_TYPE_NVM
  · by_cases hb : env.nvm_requester_balance < p
    · simp [nvm_step, fetch_requester_nvm_subscription_balance, hnvm, hb] at h
    · simp [nvm_step, fetch_requester_nvm_subscription_balance, hnvm, hb] at h
      simp [hnvm, h.symm]
  · simp [nvm_step, hnvm] at h
    simp [hnvm, h.symm]

/-- The three payment tags are pairwise distinct strings. -/
theorem native_ne_token : PAYMENT_TYPE_NATIVE ≠ PAYMENT_TYPE_TOKEN := by decide

/-- The native and subscription tags differ. -/
theorem native_ne_nvm : PAYMENT_TYPE_NATIVE ≠ PAYMENT_TYPE_NVM := by decide

/-- The token and subscription tags differ. -/
theorem token_ne_nvm : PAYMENT_TYPE_TOKEN ≠ PAYMENT_TYPE_NVM := by decide

/-- Every build event of the on-chain submission loop carries the attached
price. -/
theorem send_marketplace_request_build_value (att : Nat → Bool)
    (price retries timeout sleep v : Nat)
    (h : Ev.buildRequestTx v ∈ (send_marketplace_request att price retries timeout sleep).2.2) :
    v = price := by
  have := loopGo_events_mem (fun k => if att k then some k else none)
    [Ev.buildRequestTx price]
    [Ev.buildRequestTx price, Ev.signRequestTx, Ev.sendRequestTx]
    timeout sleep retries 0 0 (Ev.buildRequestTx v) h
  rcases this with h' | h' <;> simp at h' <;> simp [h']


/-- The off-chain submission loop never builds the on-chain request
transaction. -/
theorem send_offchain_no_build (att : Nat → Bool) (retries timeout sleep v : Nat) :
    Ev.buildRequestTx v ∉ (send_offchain_marketplace_request att retries timeout sleep).2.2 := by
  intro h
  have h' : Ev.buildRequestTx v ∈ (loopGo (fun k => if att k then some k else none)
      [Ev.readNonce] [Ev.readNonce, Ev.readRequestIdCall, Ev.signRequestId, Ev.postOffchain]
      timeout sleep retries 0 0).2.2 := h
  have := loopGo_events_mem (fun k => if att k then some k else none)
    [Ev.readNonce] [Ev.readNonce, Ev.readRequestIdCall, Ev.signRequestId, Ev.postOffchain]
    timeout sleep retries 0 0 (Ev.buildRequestTx v) h'
  rcases this with hc | hc <;> simp at hc

/-- Every event of the on-chain tail is a submission-loop event or one of
the fixed post-submission events. -/
theorem onchain_tail_events_mem (env : Env) (ct : ConfirmationType)
    (price retries timeout sleep : Nat) (x : Ev)
    (hx : x ∈ (onchain_tail env ct price retries timeout sleep).2) :
    x ∈ (send_marketplace_request env.attempts price retries timeout sleep).2.2 ∨
    x ∈ [Ev.watchRequestId, Ev.waitDelivery, Ev.fetchData] := by
  unfold onchain_tail at hx
  rcases hs : send_marketplace_request env.attempts price retries timeout sleep
    with ⟨res, n, evs⟩
  rw [hs] at hx
  cases res with
  | none =>
      left
      simpa using hx
  | some d =>
      rcases hw : wait_for_marketplace_data_url ct env.watch_time (onchainResultOf env)
        with _ | ⟨du, cs⟩
      · rw [hw] at hx
        simp only [List.append_assoc, List.mem_append] at hx
        rcases hx with hx | hx
        · left; exact hx
        · right; simp at hx ⊢; tauto
      · rw [hw] at hx
        cases du with
        | some u =>
            simp only [List.append_assoc, List.mem_append] at hx
            rcases hx with hx | hx
            · left; exact hx
            · right; simp at hx ⊢; tauto
        | none =>
            simp only [List.append_assoc, List.mem_append] at hx
            rcases hx with hx | hx
            · left; exact hx
            · right; simp at hx ⊢; tauto

/-- When the submission loop exhausts, the on-chain tail surfaces the
distinguished no-digest outcome and emits nothing beyond the loop's trace. -/
theorem onchain_tail_exhausted (env : Env) (ct : ConfirmationType)
    (price retries timeout sleep : Nat)
    (hnone : (send_marketplace_request env.attempts price retries timeout sleep).1 = none) :
    onchain_tail env ct price retries timeout sleep =
      (Except.ok InteractOutcome.submissionFailed,
       (send_marketplace_request env.attempts price retries timeout sleep).2.2) := by
  unfold onchain_tail
  rcases hs : send_marketplace_request env.attempts price retries timeout sleep
    with ⟨res, n, evs⟩
  rw [hs] at hnone
  cases res with
  | none => rfl
  | some d => simp at hnone

/-- Every event of the off-chain tail is an off-chain-loop event or one of
the fixed post-submission events. -/
theorem offchain_tail_events_mem (env : Env) (retries timeout sleep : Nat) (x : Ev)
    (hx : x ∈ (offchain_tail env retries timeout sleep).2) :
    x ∈ (send_offchain_marketplace_request env.offchain_attempts retries timeout sleep).2.2 ∨
    x ∈ [Ev.waitOffchainDelivery, Ev.fetchData] := by
  unfold offchain_tail at hx
  rcases hs : send_offchain_marketplace_request env.offchain_attempts retries timeout sleep
    with ⟨res, n, evs⟩
  rw [hs] at hx
  cases res with
  | none =>
      left
      simpa using hx
  | some d =>
      simp only [List.mem_append] at hx
      rcases hx with hx | hx
      · left; exact hx
      · right; simpa using hx

/-! ## Claim theorems -/

/-- A representative external world for concrete scenarios: chain 100, a
non-zero marketplace address, a native mech priced at 5 with sufficient
prepaid balance, first broadcast attempt succeeding, delivery observed. -/
def baseEnv : Env :=
  { chain_id := 100
    mech_marketplace_contract := "0x735FAAb1c4Ec41128c367AFb5c3baC73509f70bB"
    payment_type := PAYMENT_TYPE_NATIVE
    max_delivery_rate := 5
    service_id := 1
    mech_payment_balance_tracker := "0xFFcf8FDEE72ac11b5c542428B35EEF5769C409f0"
    wallet_token_balance := 0
    approve_tx_ok := true
    native_requester_balance := 5
    token_requester_balance := 0
    nvm_requester_balance := 0
    attempts := fun _ => true
    offchain_attempts := fun _ => true
    watch_time := fun _ => 0
    data_url := some "https://gateway/ipfs/f01"
    fetched_data := "payload" }

/-- C1 counterexample: with confirmation type `WAIT_FOR_BOTH` the waiter
never starts an off-chain watch — the `OFF_CHAIN`/`WAIT_FOR_BOTH` branch of
`wait_for_marketplace_data_url` is a print-only stub — so the claim that
both watches are started concurrently is false. -/
theorem C1_counterexample :
    Channel.offchain ∉ startedWatches ConfirmationType.WAIT_FOR_BOTH := by
  decide

/-- C1 (amended): for a confirmation type requesting both channels, the
waiter starts only the on-chain watch (the off-chain and subgraph branches
are unimplemented stubs); it then blocks until the first started watch
completes, returns that watch's result, and cancels the remaining started
watches — of which there are none. -/
theorem C1_dual_wait_amended (time : Channel → Nat) (resultOf : Channel → Option String) :
    startedWatches ConfirmationType.WAIT_FOR_BOTH = [Channel.onchain] ∧
    wait_for_marketplace_data_url ConfirmationType.WAIT_FOR_BOTH time resultOf =
      some (resultOf Channel.onchain, []) := by
  constructor
  · rfl
  · rfl

/-- C8 counterexample: two runs of `fetch_ipfs_hash` on the same
`(prompt, tool, extraAttributes)` with the distinct fresh UUID draws
`"7f2a"` and `"9c1b"` produce different `(short, full, raw)` triples (the
serialised metadata embeds the draw), so the content-addressing is not
deterministic across runs. -/
theorem C8_counterexample :
    fetch_ipfs_hash (fun s => s) "p" "t" [] "7f2a" ≠
    fetch_ipfs_hash (fun s => s) "p" "t" [] "9c1b" := by
  decide

/-- C8 (amended): the metadata embeds a fresh random UUID under the
`"nonce"` key, so whenever `extraAttributes` does not override that key,
two runs whose UUID draws differ build different metadata (and hence
different raw bytes and content identifiers); the computation is
deterministic only once the draw is fixed. -/
theorem C8_nonce_nondeterminism (prompt tool : String)
    (extra : List (String × String)) (u1 u2 : String)
    (hx : "nonce" ∉ extra.map Prod.fst) (hne : u1 ≠ u2) :
    build_metadata prompt tool extra u1 ≠ build_metadata prompt tool extra u2 := by
  intro h
  have h1 := build_metadata_lookup_nonce prompt tool extra u1 hx
  have h2 := build_metadata_lookup_nonce prompt tool extra u2 hx
  rw [h] at h1
  rw [h1] at h2
  exact hne (Option.some_injective _ h2)

/-- C8 witness: the amended statement at a concrete input. -/
theorem C8_nonce_nondeterminism_witness :
    build_metadata "p" "t" [] "x" ≠ build_metadata "p" "t" [] "y" :=
  C8_nonce_nondeterminism "p" "t" [] "x" "y" (by decide) (by decide)

/-- C9 counterexample: a first poll that succeeds with an empty response is
followed immediately by the next poll with zero seconds of sleeping — the
fixed interval is only waited after a poll that raised an exception, not
after every poll that did not yield a result. -/
theorem C9_counterexample :
    wait_for_offchain_marketplace_data
      (fun k => if k = 0 then PollOutcome.resp none else PollOutcome.resp (some "data")) 2 0 =
      (some "data", 2, 0) := by
  decide

/-- C9 (amended): the poll loop queries the fetch endpoint for the
RequestId until the first non-empty response, which it returns exactly;
between consecutive polls it sleeps the fixed one-second interval only when
the previous poll raised an exception — an empty successful response is
re-polled immediately with no sleep. -/
theorem C9_poll_loop (poll : Nat → PollOutcome) (s : String) :
    ∀ (n : Nat) (k fuel : Nat),
      (∀ j, j < n → ∀ t, poll (k + j) ≠ PollOutcome.resp (some t)) →
      poll (k + n) = PollOutcome.resp (some s) →
      n < fuel →
      wait_for_offchain_marketplace_data poll fuel k =
        (some s, n + 1, errCountFrom poll k n) := by
  intro n
  induction n with
  | zero =>
      intro k fuel hbefore hn hfuel
      obtain ⟨f, rfl⟩ : ∃ f, fuel = f + 1 := ⟨fuel - 1, by omega⟩
      rw [Nat.add_zero] at hn
      simp [wait_for_offchain_marketplace_data, hn, errCountFrom]
  | succ n ih =>
      intro k fuel hbefore hn hfuel
      obtain ⟨f, rfl⟩ : ∃ f, fuel = f + 1 := ⟨fuel - 1, by omega⟩
      have hrec := ih (k + 1) f
        (fun j hj t => by
          have := hbefore (j + 1) (Nat.succ_lt_succ hj) t
          simpa [Nat.add_assoc, Nat.add_comm 1 j] using this)
        (by simpa [Nat.add_assoc, Nat.add_comm 1 n] using hn)
        (by omega)
      have h0 : ∀ t, poll k ≠ PollOutcome.resp (some t) := by
        intro t
        simpa using hbefore 0 (Nat.succ_pos n) t
      cases hk : poll k with
      | err =>
          simp only [wait_for_offchain_marketplace_data, hk, hrec, errCountFrom]
          simp [hk]
          omega
      | resp r =>
          cases r with
          | none =>
              simp only [wait_for_offchain_marketplace_data, hk, hrec, errCountFrom]
              simp [hk]
          | some t => exact absurd hk (h0 t)

/-- C9 witness: the amended statement at a concrete input — one erroring
poll, then a successful one: two polls, one second slept. -/
theorem C9_poll_loop_witness :
    wait_for_offchain_marketplace_data
      (fun k => if k = 0 then PollOutcome.err else PollOutcome.resp (some "ok")) 3 0 =
      (some "ok", 2, 1) := by
  have h := C9_poll_loop
    (fun k => if k = 0 then PollOutcome.err else PollOutcome.resp (some "ok")) "ok" 1 0 3
    (by
      intro j hj t
      have hj0 : j = 0 := Nat.lt_one_iff.mp hj
      subst hj0
      simp)
    (by simp)
    (by omega)
  exact h

/-- C10: on any chain configuration whose chain id is not 100 but whose
marketplace address is non-zero, the orchestrator hits an unhandled lookup
failure in the default-request-config table (whose only key is 100) with an
empty network trace — before any transaction is built or any delivery wait
begins — even though the wrapped-token table lists six chains. -/
theorem C10_missing_chain_config (env : Env) (up uo : Bool) (ct : ConfirmationType)
    (retries timeout sleep : Nat)
    (hchain : env.chain_id ≠ 100)
    (hzero : ¬ env.mech_marketplace_contract = ADDRESS_ZERO) :
    marketplace_interact env up uo ct retries timeout sleep =
      (Except.error MechError.keyError, []) ∧
    CHAIN_TO_DEFAULT_MECH_MARKETPLACE_REQUEST_CONFIG.map Prod.fst = [100] ∧
    CHAIN_TO_WRAPPED_TOKEN.length = 6 := by
  refine ⟨?_, by decide, by decide⟩
  unfold marketplace_interact
  rw [if_neg hzero, lookup_default_config_ne env.chain_id hchain]

/-- C10 witness: a chain-id-1 configuration with a non-zero marketplace
address. -/
theorem C10_missing_chain_config_witness :
    marketplace_interact { baseEnv with chain_id := 1 } false false
        ConfirmationType.WAIT_FOR_BOTH 3 10 1 =
      (Except.error MechError.keyError, []) ∧
    CHAIN_TO_DEFAULT_MECH_MARKETPLACE_REQUEST_CONFIG.map Prod.fst = [100] ∧
    CHAIN_TO_WRAPPED_TOKEN.length = 6 :=
  C10_missing_chain_config { baseEnv with chain_id := 1 } false false
    ConfirmationType.WAIT_FOR_BOTH 3 10 1 (by decide) (by decide)

/-- C3: a worker whose declared payment-type tag is none of the three
recognised tags makes the call fail with the unsupported-payment-model
error, aborting the whole call in a single pass (no retry), with a network
trace that is exactly the four resolution reads of `fetch_mech_info` — no
further network call, no transaction build/sign/send. -/
theorem C3_unsupported_payment_model (env : Env) (up uo : Bool) (ct : ConfirmationType)
    (retries timeout sleep : Nat)
    (hchain : env.chain_id = 100)
    (hzero : ¬ env.mech_marketplace_contract = ADDRESS_ZERO)
    (htag : env.payment_type ∉ [PAYMENT_TYPE_NATIVE, PAYMENT_TYPE_TOKEN, PAYMENT_TYPE_NVM]) :
    marketplace_interact env up uo ct retries timeout sleep =
      (Except.error MechError.unsupportedPaymentModel,
       [Ev.readPaymentType, Ev.readMaxDeliveryRate, Ev.readServiceId, Ev.readBalanceTracker]) := by
  have hf : fetch_mech_info env =
      (Except.error MechError.unsupportedPaymentModel,
       [Ev.readPaymentType, Ev.readMaxDeliveryRate, Ev.readServiceId, Ev.readBalanceTracker]) := by
    unfold fetch_mech_info
    rw [if_neg htag]
  unfold marketplace_interact
  rw [if_neg hzero, hchain, lookup_default_config_100, hf]

/-- C3 witness: a mech declaring the unrecognised tag `"deadbeef"`. -/
theorem C3_unsupported_payment_model_witness :
    marketplace_interact { baseEnv with payment_type := "deadbeef" } false false
        ConfirmationType.WAIT_FOR_BOTH 3 10 1 =
      (Except.error MechError.unsupportedPaymentModel,
       [Ev.readPaymentType, Ev.readMaxDeliveryRate, Ev.readServiceId, Ev.readBalanceTracker]) :=
  C3_unsupported_payment_model { baseEnv with payment_type := "deadbeef" } false false
    ConfirmationType.WAIT_FOR_BOTH 3 10 1 (by decide) (by decide) (by decide)

/-- C2 counterexample: a prepaid call to a subscription-credit mech whose
held units (0) are below the max delivery rate (5) does not fail with
InsufficientBalance — the prepaid path zeroes the price before the
subscription check — and the request transaction is built, signed and sent.
This refutes the claim for "any payment model". -/
theorem C2_counterexample :
    ({ baseEnv with payment_type := PAYMENT_TYPE_NVM,
                    nvm_requester_balance := 0 } : Env).nvm_requester_balance <
      ({ baseEnv with payment_type := PAYMENT_TYPE_NVM,
                      nvm_requester_balance := 0 } : Env).max_delivery_rate ∧
    (marketplace_interact
        { baseEnv with payment_type := PAYMENT_TYPE_NVM, nvm_requester_balance := 0 }
        true false ConfirmationType.WAIT_FOR_BOTH 3 10 1).1 =
      Except.ok (InteractOutcome.delivered "payload") ∧
    Ev.buildRequestTx 0 ∈
      (marketplace_interact
        { baseEnv with payment_type := PAYMENT_TYPE_NVM, nvm_requester_balance := 0 }
        true false ConfirmationType.WAIT_FOR_BOTH 3 10 1).2 := by
  refine ⟨by decide, rfl, by decide⟩

/-- C2 (amended): for prepaid calls under the native and token payment
models, a standing tracker balance below the max delivery rate fails with
InsufficientBalance immediately after the balance read — the trace is the
four resolution reads plus the single tracker-balance read, so no
transaction is ever built, signed or sent; the subscription-credit model is
not covered by this prepaid check (its held-units comparison is against the
already-zeroed price). -/
theorem C2_prepaid_insufficient_balance (env : Env) (uo : Bool) (ct : ConfirmationType)
    (retries timeout sleep : Nat)
    (hchain : env.chain_id = 100)
    (hzero : ¬ env.mech_marketplace_contract = ADDRESS_ZERO)
    (hlow : (env.payment_type = PAYMENT_TYPE_NATIVE ∧
               env.native_requester_balance < env.max_delivery_rate) ∨
            (env.payment_type = PAYMENT_TYPE_TOKEN ∧
               env.token_requester_balance < env.max_delivery_rate)) :
    marketplace_interact env true uo ct retries timeout sleep =
      (Except.error MechError.insufficientBalance,
       [Ev.readPaymentType, Ev.readMaxDeliveryRate, Ev.readServiceId, Ev.readBalanceTracker,
        Ev.readTrackerBalance]) := by
  unfold marketplace_interact
  rw [if_neg hzero, hchain, lookup_default_config_100]
  rcases hlow with ⟨htag, hb⟩ | ⟨htag, hb⟩
  · have hf : fetch_mech_info env =
        (Except.ok (env.payment_type, env.service_id, env.max_delivery_rate,
                    env.mech_payment_balance_tracker),
         [Ev.readPaymentType, Ev.readMaxDeliveryRate, Ev.readServiceId, Ev.readBalanceTracker]) := by
      unfold fetch_mech_info
      rw [if_pos (by simp [htag])]
    have hp : price_step env true =
        (PriceStep.fail MechError.insufficientBalance, [Ev.readTrackerBalance]) := by
      simp [price_step, check_prepaid_balances, htag, hb]
    rw [hf, hp]
    rfl
  · have hf : fetch_mech_info env =
        (Except.ok (env.payment_type, env.service_id, env.max_delivery_rate,
                    env.mech_payment_balance_tracker),
         [Ev.readPaymentType, Ev.readMaxDeliveryRate, Ev.readServiceId, Ev.readBalanceTracker]) := by
      unfold fetch_mech_info
      rw [if_pos (by simp [htag])]
    have hTN : ¬ PAYMENT_TYPE_TOKEN = PAYMENT_TYPE_NATIVE := by decide
    have hp : price_step env true =
        (PriceStep.fail MechError.insufficientBalance, [Ev.readTrackerBalance]) := by
      simp [price_step, check_prepaid_balances, htag, hb, hTN]
    rw [hf, hp]
    rfl

/-- C2 witness: a prepaid native call with balance 2 below rate 5. -/
theorem C2_prepaid_insufficient_balance_witness :
    marketplace_interact { baseEnv with native_requester_balance := 2 } true false
        ConfirmationType.WAIT_FOR_BOTH 3 10 1 =
      (Except.error MechError.insufficientBalance,
       [Ev.readPaymentType, Ev.readMaxDeliveryRate, Ev.readServiceId, Ev.readBalanceTracker,
        Ev.readTrackerBalance]) :=
  C2_prepaid_insufficient_balance { baseEnv with native_requester_balance := 2 } false
    ConfirmationType.WAIT_FOR_BOTH 3 10 1 (by decide) (by decide)
    (Or.inl ⟨by decide, by decide⟩)

/-- C7 counterexample: on a prepaid call to a subscription-credit mech the
held-units check compares against the running price — already zeroed by the
prepaid path — not against the max delivery rate: with 1 held unit below
the rate 3, no InsufficientBalance is raised and the request transaction is
sent anyway. -/
theorem C7_counterexample :
    ({ baseEnv with payment_type := PAYMENT_TYPE_NVM, max_delivery_rate := 3,
                    nvm_requester_balance := 1 } : Env).nvm_requester_balance <
      ({ baseEnv with payment_type := PAYMENT_TYPE_NVM, max_delivery_rate := 3,
                      nvm_requester_balance := 1 } : Env).max_delivery_rate ∧
    (marketplace_interact
        { baseEnv with payment_type := PAYMENT_TYPE_NVM, max_delivery_rate := 3,
                       nvm_requester_balance := 1 }
        true false ConfirmationType.WAIT_FOR_BOTH 3 10 1).1 =
      Except.ok (InteractOutcome.delivered "payload") ∧
    Ev.sendRequestTx ∈
      (marketplace_interact
        { baseEnv with payment_type := PAYMENT_TYPE_NVM, max_delivery_rate := 3,
                       nvm_requester_balance := 1 }
        true false ConfirmationType.WAIT_FOR_BOTH 3 10 1).2 := by
  refine ⟨by decide, rfl, by decide⟩

/-- C7 (amended): for a call targeting a subscription-credit mech the
resolver reads the subscription-token identity from the balance tracker and
then the requester's held units of it, and fails with InsufficientBalance
whenever the held units are below the running price — which equals the max
delivery rate exactly on non-prepaid calls (on prepaid calls the compared
price is zero, so the check never fires).  On a non-prepaid call with held
units below the rate, the trace ends at the three subscription reads and no
request transaction is built, signed or sent. -/
theorem C7_nvm_insufficient_balance (env : Env) (uo : Bool) (ct : ConfirmationType)
    (retries timeout sleep : Nat)
    (hchain : env.chain_id = 100)
    (hzero : ¬ env.mech_marketplace_contract = ADDRESS_ZERO)
    (htag : env.payment_type = PAYMENT_TYPE_NVM)
    (hlow : env.nvm_requester_balance < env.max_delivery_rate) :
    marketplace_interact env false uo ct retries timeout sleep =
      (Except.error MechError.insufficientBalance,
       [Ev.readPaymentType, Ev.readMaxDeliveryRate, Ev.readServiceId, Ev.readBalanceTracker,
        Ev.readSubscriptionNFT, Ev.readSubscriptionTokenId, Ev.readNvmBalance]) := by
  unfold marketplace_interact
  rw [if_neg hzero, hchain, lookup_default_config_100]
  have hf : fetch_mech_info env =
      (Except.ok (env.payment_type, env.service_id, env.max_delivery_rate,
                  env.mech_payment_balance_tracker),
       [Ev.readPaymentType, Ev.readMaxDeliveryRate, Ev.readServiceId, Ev.readBalanceTracker]) := by
    unfold fetch_mech_info
    rw [if_pos (by simp [htag])]
  have hNT : ¬ env.payment_type = PAYMENT_TYPE_TOKEN := by
    rw [htag]; exact fun h => token_ne_nvm h.symm
  have hp : price_step env false = (PriceStep.price env.max_delivery_rate, []) := by
    simp [price_step, hNT]
  have hn : nvm_step env env.max_delivery_rate =
      (PriceStep.fail MechError.insufficientBalance,
       [Ev.readSubscriptionNFT, Ev.readSubscriptionTokenId, Ev.readNvmBalance]) := by
    simp [nvm_step, fetch_requester_nvm_subscription_balance, htag, hlow]
  rw [hf, hp]
  dsimp only
  rw [hn]
  rfl

/-- C7 witness: a non-prepaid subscription call with 1 held unit below
rate 4. -/
theorem C7_nvm_insufficient_balance_witness :
    marketplace_interact
        { baseEnv with payment_type := PAYMENT_TYPE_NVM, max_delivery_rate := 4,
                       nvm_requester_balance := 1 }
        false false ConfirmationType.WAIT_FOR_BOTH 3 10 1 =
      (Except.error MechError.insufficientBalance,
       [Ev.readPaymentType, Ev.readMaxDeliveryRate, Ev.readServiceId, Ev.readBalanceTracker,
        Ev.readSubscriptionNFT, Ev.readSubscriptionTokenId, Ev.readNvmBalance]) :=
  C7_nvm_insufficient_balance
    { baseEnv with payment_type := PAYMENT_TYPE_NVM, max_delivery_rate := 4,
                   nvm_requester_balance := 1 }
    false ConfirmationType.WAIT_FOR_BOTH 3 10 1 (by decide) (by decide) (by decide) (by decide)

/-- C6: when the submission retry loop exits without a successful broadcast
(here: every attempt raises), the call surfaces the distinguished
no-digest outcome ("Unable to send request", returning `None`) to the
caller, returns no transaction identifier, and never watches for a
RequestId, never starts the delivery wait and never fetches data;
moreover, in general, a loop in which every attempt fails returns no
digest whatever the retry and deadline bounds. -/
theorem C6_submission_exhausted (env : Env) (ct : ConfirmationType)
    (retries timeout sleep : Nat)
    (hchain : env.chain_id = 100)
    (hzero : ¬ env.mech_marketplace_contract = ADDRESS_ZERO)
    (htag : env.payment_type = PAYMENT_TYPE_NATIVE)
    (hfail : ∀ k, env.attempts k = false) :
    ((marketplace_interact env false false ct retries timeout sleep).1 =
        Except.ok InteractOutcome.submissionFailed ∧
      Ev.watchRequestId ∉ (marketplace_interact env false false ct retries timeout sleep).2 ∧
      Ev.waitDelivery ∉ (marketplace_interact env false false ct retries timeout sleep).2 ∧
      Ev.fetchData ∉ (marketplace_interact env false false ct retries timeout sleep).2) ∧
    (∀ (att : Nat → Bool) (price retries2 timeout2 sleep2 : Nat),
      (∀ k, att k = false) →
      (send_marketplace_request att price retries2 timeout2 sleep2).1 = none) := by
  have hgen : ∀ (att : Nat → Bool) (price retries2 timeout2 sleep2 : Nat),
      (∀ k, att k = false) →
      (send_marketplace_request att price retries2 timeout2 sleep2).1 = none := by
    intro att price retries2 timeout2 sleep2 hfall
    exact loopGo_none_of_all_fail (fun k => if att k then some k else none)
      [Ev.buildRequestTx price]
      [Ev.buildRequestTx price, Ev.signRequestTx, Ev.sendRequestTx]
      timeout2 sleep2 (fun k => by simp [hfall k]) retries2 0 0
  have hsend : (send_marketplace_request env.attempts env.max_delivery_rate
      retries timeout sleep).1 = none :=
    hgen env.attempts env.max_delivery_rate retries timeout sleep hfail
  have hf : fetch_mech_info env =
      (Except.ok (env.payment_type, env.service_id, env.max_delivery_rate,
                  env.mech_payment_balance_tracker),
       [Ev.readPaymentType, Ev.readMaxDeliveryRate, Ev.readServiceId, Ev.readBalanceTracker]) := by
    unfold fetch_mech_info
    rw [if_pos (by simp [htag])]
  have hNT : ¬ env.payment_type = PAYMENT_TYPE_TOKEN := by
    rw [htag]; exact native_ne_token
  have hNN : ¬ env.payment_type = PAYMENT_TYPE_NVM := by
    rw [htag]; exact native_ne_nvm
  have hp : price_step env false = (PriceStep.price env.max_delivery_rate, []) := by
    simp [price_step, hNT]
  have hn : nvm_step env env.max_delivery_rate = (PriceStep.price env.max_delivery_rate, []) := by
    simp [nvm_step, hNN]
  have hinteract : marketplace_interact env false false ct retries timeout sleep =
      (Except.ok InteractOutcome.submissionFailed,
       [Ev.readPaymentType, Ev.readMaxDeliveryRate, Ev.readServiceId, Ev.readBalanceTracker] ++
         (send_marketplace_request env.attempts env.max_delivery_rate
            retries timeout sleep).2.2) := by
    unfold marketplace_interact
    rw [if_neg hzero, hchain, lookup_default_config_100, hf]
    dsimp only
    rw [hp]
    dsimp only
    rw [hn]
    dsimp only
    rw [if_pos rfl, onchain_tail_exhausted env ct env.max_delivery_rate retries timeout sleep hsend]
    simp
  have hsendmem : ∀ x : Ev,
      x ∈ (send_marketplace_request env.attempts env.max_delivery_rate
            retries timeout sleep).2.2 →
      x ∈ [Ev.buildRequestTx env.max_delivery_rate] ∨
      x ∈ [Ev.buildRequestTx env.max_delivery_rate, Ev.signRequestTx, Ev.sendRequestTx] :=
    fun x hx => loopGo_events_mem (fun k => if env.attempts k then some k else none)
      [Ev.buildRequestTx env.max_delivery_rate]
      [Ev.buildRequestTx env.max_delivery_rate, Ev.signRequestTx, Ev.sendRequestTx]
      timeout sleep retries 0 0 x hx
  refine ⟨⟨by rw [hinteract], ?_, ?_, ?_⟩, hgen⟩
  · intro hmem
    rw [hinteract] at hmem
    simp only [List.mem_append] at hmem
    rcases hmem with hmem | hmem
    · simp at hmem
    · rcases hsendmem _ hmem with hc | hc <;> simp at hc
  · intro hmem
    rw [hinteract] at hmem
    simp only [List.mem_append] at hmem
    rcases hmem with hmem | hmem
    · simp at hmem
    · rcases hsendmem _ hmem with hc | hc <;> simp at hc
  · intro hmem
    rw [hinteract] at hmem
    simp only [List.mem_append] at hmem
    rcases hmem with hmem | hmem
    · simp at hmem
    · rcases hsendmem _ hmem with hc | hc <;> simp at hc

/-- C6 witness: a native non-prepaid call in which every broadcast attempt
raises — the call surfaces the no-digest outcome and never begins the
delivery wait. -/
theorem C6_submission_exhausted_witness :
    (marketplace_interact { baseEnv with attempts := fun _ => false } false false
        ConfirmationType.WAIT_FOR_BOTH 3 10 1).1 =
      Except.ok InteractOutcome.submissionFailed ∧
    Ev.watchRequestId ∉ (marketplace_interact { baseEnv with attempts := fun _ => false }
        false false ConfirmationType.WAIT_FOR_BOTH 3 10 1).2 ∧
    Ev.waitDelivery ∉ (marketplace_interact { baseEnv with attempts := fun _ => false }
        false false ConfirmationType.WAIT_FOR_BOTH 3 10 1).2 ∧
    Ev.fetchData ∉ (marketplace_interact { baseEnv with attempts := fun _ => false }
        false false ConfirmationType.WAIT_FOR_BOTH 3 10 1).2 :=
  (C6_submission_exhausted { baseEnv with attempts := fun _ => false }
    ConfirmationType.WAIT_FOR_BOTH 3 10 1 (by decide) (by decide) (by decide)
    (fun _ => rfl)).1

/-- C5 counterexample: a prepaid call to a native mech with rate 7 and
sufficient prepaid balance builds the request transaction with value 0, not
the max delivery rate — prepaid calls always zero the attached value, an
exception the claim does not allow. -/
theorem C5_counterexample :
    Ev.buildRequestTx 0 ∈
      (marketplace_interact
        { baseEnv with max_delivery_rate := 7, native_requester_balance := 7 }
        true false ConfirmationType.WAIT_FOR_BOTH 3 10 1).2 ∧
    Ev.buildRequestTx 7 ∉
      (marketplace_interact
        { baseEnv with max_delivery_rate := 7, native_requester_balance := 7 }
        true false ConfirmationType.WAIT_FOR_BOTH 3 10 1).2 ∧
    ({ baseEnv with max_delivery_rate := 7, native_requester_balance := 7 } : Env).max_delivery_rate = 7 := by
  refine ⟨by decide, by decide, by decide⟩

/-- C5 (amended): every build of the request transaction attaches the max
delivery rate exactly on non-prepaid native calls; token and
subscription-credit calls attach zero, and so does every prepaid call
(the prepaid path zeroes the price for all models). -/
theorem C5_attached_value (env : Env) (up uo : Bool) (ct : ConfirmationType)
    (retries timeout sleep v : Nat)
    (hmem : Ev.buildRequestTx v ∈ (marketplace_interact env up uo ct retries timeout sleep).2) :
    v = if up then 0
        else if env.payment_type = PAYMENT_TYPE_NATIVE then env.max_delivery_rate
        else 0 := by
  by_cases hz : env.mech_marketplace_contract = ADDRESS_ZERO
  · unfold marketplace_interact at hmem
    rw [if_pos hz] at hmem
    simp at hmem
  · unfold marketplace_interact at hmem
    rw [if_neg hz] at hmem
    cases hlk : CHAIN_TO_DEFAULT_MECH_MARKETPLACE_REQUEST_CONFIG.lookup env.chain_id with
    | none => rw [hlk] at hmem; simp at hmem
    | some cfg =>
        rw [hlk] at hmem
        rcases hf : fetch_mech_info env with ⟨fres, fevs⟩
        rw [hf] at hmem
        have hfevs : fevs =
            [Ev.readPaymentType, Ev.readMaxDeliveryRate, Ev.readServiceId, Ev.readBalanceTracker] := by
          have := fetch_mech_info_events env
          rw [hf] at this
          exact this
        cases fres with
        | error e =>
            rw [hfevs] at hmem
            simp at hmem
        | ok info =>
            rcases hps : price_step env up with ⟨pres, pevs⟩
            rw [hps] at hmem
            have hpevs : ∀ x : Ev, x ∈ pevs →
                x ∈ [Ev.readWalletTokenBalance, Ev.buildApproveTx, Ev.signApproveTx,
                     Ev.sendApproveTx, Ev.waitApproveReceipt, Ev.readTrackerBalance] :=
              fun x hx => price_step_no_request_tx env up x (by rw [hps]; exact hx)
            cases pres with
            | fail e =>
                rw [hfevs] at hmem
                simp only [List.mem_append] at hmem
                rcases hmem with hmem | hmem
                · simp at hmem
                · have := hpevs _ hmem; simp at this
            | abort o =>
                rw [hfevs] at hmem
                simp only [List.mem_append] at hmem
                rcases hmem with hmem | hmem
                · simp at hmem
                · have := hpevs _ hmem; simp at this
            | price p1 =>
                rcases hns : nvm_step env p1 with ⟨nres, nevs⟩
                dsimp only at hmem
                rw [hns] at hmem
                have hnevs : ∀ x : Ev, x ∈ nevs →
                    x ∈ [Ev.readSubscriptionNFT, Ev.readSubscriptionTokenId, Ev.readNvmBalance] :=
                  fun x hx => nvm_step_events env p1 x (by rw [hns]; exact hx)
                cases nres with
                | fail e =>
                    rw [hfevs] at hmem
                    simp only [List.append_assoc, List.mem_append] at hmem
                    rcases hmem with hmem | hmem | hmem
                    · simp at hmem
                    · have := hpevs _ hmem; simp at this
                    · have := hnevs _ hmem; simp at this
                | abort o =>
                    rw [hfevs] at hmem
                    simp only [List.append_assoc, List.mem_append] at hmem
                    rcases hmem with hmem | hmem | hmem
                    · simp at hmem
                    · have := hpevs _ hmem; simp at this
                    · have := hnevs _ hmem; simp at this
                | price p =>
                    rw [hfevs] at hmem
                    simp only [List.append_assoc, List.mem_append] at hmem
                    have hvp : v = p := by
                      rcases hmem with hmem | hmem | hmem | hmem
                      · simp at hmem
                      · have := hpevs _ hmem; simp at this
                      · have := hnevs _ hmem; simp at this
                      · cases uo with
                        | false =>
                            rw [if_pos rfl] at hmem
                            rcases onchain_tail_events_mem env ct p retries timeout sleep _ hmem
                              with hc | hc
                            · exact send_marketplace_request_build_value env.attempts p
                                retries timeout sleep v hc
                            · simp at hc
                        | true =>
                            simp only [Bool.true_eq_false, if_false] at hmem
                            rcases offchain_tail_events_mem env retries timeout sleep _ hmem
                              with hc | hc
                            · exact absurd hc (send_offchain_no_build env.offchain_attempts
                                retries timeout sleep v)
                            · simp at hc
                    have htag : env.payment_type ∈
                        [PAYMENT_TYPE_NATIVE, PAYMENT_TYPE_TOKEN, PAYMENT_TYPE_NVM] :=
                      fetch_mech_info_ok_tag env info (by rw [hf])
                    have hp1 : p1 = if up then 0
                        else if env.payment_type = PAYMENT_TYPE_TOKEN then 0
                        else env.max_delivery_rate :=
                      price_step_price env up p1 (by rw [hps])
                    have hp : p = if env.payment_type = PAYMENT_TYPE_NVM then 0 else p1 :=
                      nvm_step_price env p1 p (by rw [hns])
                    rw [hvp, hp, hp1]
                    simp only [List.mem_cons, List.not_mem_nil] at htag
                    rcases htag with h | h | h | hfalse
                    · rw [h]
                      simp [(by decide : (PAYMENT_TYPE_NATIVE = PAYMENT_TYPE_NVM) = False),
                        (by decide : (PAYMENT_TYPE_NATIVE = PAYMENT_TYPE_TOKEN) = False)]
                    · rw [h]
                      simp [(by decide : (PAYMENT_TYPE_TOKEN = PAYMENT_TYPE_NVM) = False),
                        (by decide : (PAYMENT_TYPE_TOKEN = PAYMENT_TYPE_NATIVE) = False)]
                    · rw [h]
                      simp [(by decide : (PAYMENT_TYPE_NVM = PAYMENT_TYPE_NATIVE) = False)]
                    · exact absurd hfalse (by simp)

/-- The environment of the C5 scenario: prepaid native call, rate 7,
prepaid balance 7. -/
def envC5 : Env := { baseEnv with max_delivery_rate := 7, native_requester_balance := 7 }

/-- C5 witness: on the prepaid native scenario the attached value is zero
per the amended rule. -/
theorem C5_attached_value_witness :
    Ev.buildRequestTx 0 ∈
      (marketplace_interact envC5 true false ConfirmationType.WAIT_FOR_BOTH 3 10 1).2 ∧
    (0 : Nat) = if true then 0
        else if envC5.payment_type = PAYMENT_TYPE_NATIVE then envC5.max_delivery_rate
        else 0 :=
  ⟨by decide,
   C5_attached_value envC5 true false ConfirmationType.WAIT_FOR_BOTH 3 10 1 0 (by decide)⟩

/-- C4: for both submitter variants, with deadline `timeout` and backoff
`sleep`, the retry loop (i) makes at most `retries` attempts, (ii) makes at
most `ceil(timeout/sleep) = (timeout + sleep - 1)/sleep` attempts when the
backoff is positive, (iii) starts its `k`-th attempt at wall clock
`k·sleep`, always strictly before the deadline, and (iv) returns the digest
of the first successful attempt immediately, making exactly `k + 1`
attempts when attempt `k` is the first success admitted by the bounds. -/
theorem C4_retry_bounds (att oatt : Nat → Bool) (price retries timeout sleep : Nat) :
    ((send_marketplace_request att price retries timeout sleep).2.1 ≤ retries ∧
     (0 < sleep →
       (send_marketplace_request att price retries timeout sleep).2.1 ≤
         (timeout + sleep - 1) / sleep) ∧
     (∀ k, k < (send_marketplace_request att price retries timeout sleep).2.1 →
       k * sleep < timeout) ∧
     (∀ k, (∀ j, j < k → att j = false) → att k = true → k < retries → k * sleep < timeout →
       (send_marketplace_request att price retries timeout sleep).1 = some k ∧
       (send_marketplace_request att price retries timeout sleep).2.1 = k + 1)) ∧
    ((send_offchain_marketplace_request oatt retries timeout sleep).2.1 ≤ retries ∧
     (0 < sleep →
       (send_offchain_marketplace_request oatt retries timeout sleep).2.1 ≤
         (timeout + sleep - 1) / sleep) ∧
     (∀ k, k < (send_offchain_marketplace_request oatt retries timeout sleep).2.1 →
       k * sleep < timeout) ∧
     (∀ k, (∀ j, j < k → oatt j = false) → oatt k = true → k < retries → k * sleep < timeout →
       (send_offchain_marketplace_request oatt retries timeout sleep).1 = some k ∧
       (send_offchain_marketplace_request oatt retries timeout sleep).2.1 = k + 1)) := by
  refine ⟨⟨?_, ?_, ?_, ?_⟩, ⟨?_, ?_, ?_, ?_⟩⟩
  · exact loopGo_count_le_fuel (fun j => if att j then some j else none)
      [Ev.buildRequestTx price] [Ev.buildRequestTx price, Ev.signRequestTx, Ev.sendRequestTx]
      timeout sleep retries 0 0
  · intro hs
    exact loopGo_le_ceil (fun j => if att j then some j else none)
      [Ev.buildRequestTx price] [Ev.buildRequestTx price, Ev.signRequestTx, Ev.sendRequestTx]
      timeout sleep retries hs
  · intro k hk
    exact loopGo_attempt_before_deadline (fun j => if att j then some j else none)
      [Ev.buildRequestTx price] [Ev.buildRequestTx price, Ev.signRequestTx, Ev.sendRequestTx]
      timeout sleep retries k hk
  · intro k hb hk hkr hkt
    exact loopGo_first_success (fun j => if att j then some j else none)
      [Ev.buildRequestTx price] [Ev.buildRequestTx price, Ev.signRequestTx, Ev.sendRequestTx]
      timeout sleep k k retries 0 0
      (fun j hj => by simp [hb j hj]) (by simp [hk]) hkr (by simpa using hkt)
  · exact loopGo_count_le_fuel (fun j => if oatt j then some j else none)
      [Ev.readNonce] [Ev.readNonce, Ev.readRequestIdCall, Ev.signRequestId, Ev.postOffchain]
      timeout sleep retries 0 0
  · intro hs
    exact loopGo_le_ceil (fun j => if oatt j then some j else none)
      [Ev.readNonce] [Ev.readNonce, Ev.readRequestIdCall, Ev.signRequestId, Ev.postOffchain]
      timeout sleep retries hs
  · intro k hk
    exact loopGo_attempt_before_deadline (fun j => if oatt j then some j else none)
      [Ev.readNonce] [Ev.readNonce, Ev.readRequestIdCall, Ev.signRequestId, Ev.postOffchain]
      timeout sleep retries k hk
  · intro k hb hk hkr hkt
    exact loopGo_first_success (fun j => if oatt j then some j else none)
      [Ev.readNonce] [Ev.readNonce, Ev.readRequestIdCall, Ev.signRequestId, Ev.postOffchain]
      timeout sleep k k retries 0 0
      (fun j hj => by simp [hb j hj]) (by simp [hk]) hkr (by simpa using hkt)

/-- C4 witness: with every attempt succeeding, bounds `retries = 3`,
`timeout = 10`, `sleep = 2`, the first attempt's digest is returned after
exactly one attempt, within the `ceil(10/2)` bound. -/
theorem C4_retry_bounds_witness :
    (send_marketplace_request (fun _ => true) 5 3 10 2).1 = some 0 ∧
    (send_marketplace_request (fun _ => true) 5 3 10 2).2.1 = 1 ∧
    (send_offchain_marketplace_request (fun _ => true) 3 10 2).2.1 ≤ (10 + 2 - 1) / 2 := by
  have h := C4_retry_bounds (fun _ => true) (fun _ => true) 5 3 10 2
  exact ⟨(h.1.2.2.2 0 (fun j hj => absurd hj (Nat.not_lt_zero j)) rfl (by omega) (by omega)).1,
         (h.1.2.2.2 0 (fun j hj => absurd hj (Nat.not_lt_zero j)) rfl (by omega) (by omega)).2,
         h.2.2.1 (by omega)⟩
